import Mathlib

/-!
Verification of VLCYT (a PySide6/VLC YouTube player) against its
natural-language specification.

Shallow embedding of the parts of the source the claims touch:
- `src/VLCYT/managers/thread_manager.py` (`ManagedThread`, `ThreadManager`)
- `src/VLCYT/core/vlc_player.py` (`VLCPlayer` playback operations)
- `src/VLCYT/managers/settings_manager.py` (video-position persistence)
- `src/VLCYT/utils/format_utils.py` (`format_time`)
- `src/VLCYT/models.py` (`PlaylistItem`)

Python values a task may return or raise are abstracted to `Nat`
(the claims never depend on the value type); a Python `None` result is
`Option.none`.
-/

namespace VLCYT

/-! ## ManagedThread (thread_manager.py, class ManagedThread)

A `ManagedThread` object carries the fields set in `__init__`:
`_result = None`, `_exception = None`, `_canceled = False`,
`_completed = False`.  Its lifecycle is driven by three kinds of atomic
events:

* `startRun` — the thread has been started and `run()` begins: if
  `_canceled` is already set, `run` returns at once; otherwise the target
  is now executing (the thread is alive).
* `finishRun o` — the target returns (`o = ok v`, storing the result and
  setting `_completed`) or raises (`o = err e`, storing the exception).
* `cancel` — `cancel()` is called: it always sets `_canceled := true`
  (whether or not the thread `is_alive()`; only the returned Bool differs).

Python's `Thread.start` runs `run` exactly once and `finishRun` can only
happen while the target is executing, so events that do not apply in the
current state are identity steps.
-/

/-- Outcome of executing the target callable: it returns a value (possibly
Python `None`, hence `Option Nat`) or raises an exception. -/
inductive Outcome where
  | ok (v : Option Nat)
  | err (e : Nat)
deriving DecidableEq, Repr

/-- The observable fields of a `ManagedThread` object, plus bookkeeping of
where the thread is in its lifecycle: `running` = the target is currently
executing (`is_alive()` in the interesting window), `finished` = `run()`
has returned. -/
structure MThread where
  result : Option Nat
  exception : Option Nat
  canceled : Bool
  completed : Bool
  running : Bool
  finished : Bool
deriving DecidableEq, Repr

/-- `ManagedThread.__init__`: result/exception `None`, flags `False`,
not yet started. -/
def MThread.init : MThread :=
  { result := none, exception := none, canceled := false,
    completed := false, running := false, finished := false }

/-- Lifecycle events of one `ManagedThread`. -/
inductive MEvent where
  | startRun
  | finishRun (o : Outcome)
  | cancel
deriving DecidableEq, Repr

/-- One atomic lifecycle step.  `startRun` embeds the head of `run()`
(`if self._canceled: return`); `finishRun` embeds the `try/except` body
(`self._result = target(...); self._completed = True` on success,
`self._exception = e` on an exception); `cancel` embeds `cancel()`,
which sets `_canceled = True` on every path. -/
def MThread.step (t : MThread) : MEvent → MThread
  | .startRun =>
      if t.running || t.finished then t
      else if t.canceled then { t with finished := true }
      else { t with running := true }
  | .finishRun o =>
      if t.running then
        match o with
        | .ok v => { t with result := v, completed := true,
                            running := false, finished := true }
        | .err e => { t with exception := some e,
                             running := false, finished := true }
      else t
  | .cancel => { t with canceled := true }

/-- The state of a `ManagedThread` after a sequence of lifecycle events,
starting from `__init__`. -/
def runEvents (es : List MEvent) : MThread :=
  es.foldl MThread.step MThread.init

/-- `is_canceled()` returns `self._canceled`. -/
def MThread.is_canceled (t : MThread) : Bool := t.canceled

/-- `is_completed()` returns `self._completed`. -/
def MThread.is_completed (t : MThread) : Bool := t.completed

/-- `get_result()` returns `self._result`. -/
def MThread.get_result (t : MThread) : Option Nat := t.result

/-- `get_exception()` returns `self._exception`. -/
def MThread.get_exception (t : MThread) : Option Nat := t.exception

/-- The terminal state the spec's state machine assigns to a handle, read
off the observers `is_completed`, `get_exception`, `is_canceled`
(Completed and Failed observed with priority over Canceled; `none` means
the handle is still Pending or Running). -/
inductive TerminalState where
  | Canceled
  | Completed
  | Failed
deriving DecidableEq, Repr

/-- Observation map used by the state-machine claim. -/
def MThread.observeTerminal (t : MThread) : Option TerminalState :=
  if t.is_completed then some .Completed
  else if t.get_exception.isSome then some .Failed
  else if t.is_canceled then some .Canceled
  else none

/-- Invariant of every reachable `ManagedThread` state: no result,
exception or completion flag before `run()` has returned; the thread is
not alive after `run()` returned; success and failure are exclusive. -/
def MThread.Inv (t : MThread) : Prop :=
  (t.finished = false → t.result = none ∧ t.exception = none ∧ t.completed = false) ∧
  (t.running = true → t.finished = false) ∧
  (t.completed = true → t.exception = none ∧ t.finished = true) ∧
  (t.exception.isSome → t.completed = false ∧ t.finished = true)

theorem MThread.inv_init : MThread.init.Inv := by
  simp [MThread.Inv, MThread.init]

theorem MThread.inv_step (t : MThread) (e : MEvent) (h : t.Inv) :
    (t.step e).Inv := by
  obtain ⟨res, exc, cz, comp, run, fin⟩ := t
  cases e with
  | startRun =>
      cases run <;> cases fin <;> cases cz <;>
        simp_all [MThread.step, MThread.Inv]
  | finishRun o =>
      cases o <;> cases run <;>
        simp_all [MThread.step, MThread.Inv]
  | cancel =>
      simp_all [MThread.step, MThread.Inv]

theorem MThread.inv_foldl (t : MThread) (es : List MEvent) (h : t.Inv) :
    (es.foldl MThread.step t).Inv := by
  induction es generalizing t with
  | nil => exact h
  | cons e es ih => exact ih _ (t.inv_step e h)

theorem inv_runEvents (es : List MEvent) : (runEvents es).Inv :=
  MThread.inv_foldl MThread.init es MThread.inv_init

theorem runEvents_append (es rest : List MEvent) :
    runEvents (es ++ rest) = rest.foldl MThread.step (runEvents es) := by
  simp [runEvents, List.foldl_append]

/-- A handle whose `cancel()` landed while it was neither alive nor done
stays inert: this predicate is preserved by every lifecycle event. -/
def MThread.Dead (t : MThread) : Prop :=
  t.canceled = true ∧ t.running = false ∧ t.result = none ∧
    t.exception = none ∧ t.completed = false

theorem MThread.dead_step (t : MThread) (e : MEvent) (h : t.Dead) :
    (t.step e).Dead := by
  obtain ⟨res, exc, cz, comp, run, fin⟩ := t
  obtain ⟨h1, h2, h3, h4, h5⟩ := h
  cases e with
  | startRun => cases fin <;> simp_all [MThread.step, MThread.Dead]
  | finishRun o => cases o <;> simp_all [MThread.step, MThread.Dead]
  | cancel => simp_all [MThread.step, MThread.Dead]

theorem MThread.dead_foldl (t : MThread) (es : List MEvent) (h : t.Dead) :
    (es.foldl MThread.step t).Dead := by
  induction es generalizing t with
  | nil => exact h
  | cons e es ih => exact ih _ (t.dead_step e h)

/-- Per-step stability facts over any state satisfying the reachable-state
invariant: completion and failure are permanent and exclusive, the canceled
flag is never cleared, and a pending-canceled handle never completes or
fails. -/
theorem MThread.step_stability (t : MThread) (e : MEvent) (h : t.Inv) :
    (t.completed = true →
      (t.step e).completed = true ∧ (t.step e).exception = none ∧
        (t.step e).result = t.result) ∧
    (t.exception.isSome →
      (t.step e).exception = t.exception ∧ (t.step e).completed = false) ∧
    (t.canceled = true → (t.step e).canceled = true) ∧
    (t.canceled = true ∧ t.running = false ∧ t.finished = false →
      (t.step e).completed = false ∧ (t.step e).exception = none ∧
        (t.step e).running = false) ∧
    ¬(t.completed = true ∧ t.exception.isSome) := by
  obtain ⟨res, exc, cz, comp, run, fin⟩ := t
  obtain ⟨h1, h2, h3, h4⟩ := h
  cases e with
  | startRun =>
      cases run <;> cases fin <;> cases cz <;> cases comp <;> cases exc <;>
        simp_all [MThread.step]
  | finishRun o =>
      cases o <;> cases run <;> cases comp <;> cases exc <;>
        simp_all [MThread.step]
  | cancel =>
      cases comp <;> cases exc <;> simp_all [MThread.step]

/-- Claim C1, as stated, is false: a handle observed in the `Canceled`
terminal state (canceled while its target is running: `is_canceled` true,
`is_completed` false, no exception) is moved by a later event — the target
returning — to the `Completed` terminal state. -/
theorem C1_counterexample :
    ((runEvents [MEvent.startRun, MEvent.cancel]).is_canceled = true ∧
     (runEvents [MEvent.startRun, MEvent.cancel]).is_completed = false ∧
     (runEvents [MEvent.startRun, MEvent.cancel]).get_exception = none) ∧
    ((runEvents [MEvent.startRun, MEvent.cancel,
        MEvent.finishRun (Outcome.ok (some 0))]).is_canceled = true ∧
     (runEvents [MEvent.startRun, MEvent.cancel,
        MEvent.finishRun (Outcome.ok (some 0))]).is_completed = true ∧
     (runEvents [MEvent.startRun, MEvent.cancel,
        MEvent.finishRun (Outcome.ok (some 0))]).observeTerminal =
       some TerminalState.Completed) := by
  decide

/-- Claim C1 (amended): on every reachable handle, `Completed` and
`Failed` are permanent and mutually exclusive terminal observations, the
canceled flag is monotone, and a handle canceled while still `Pending`
never becomes `Completed` or `Failed`; but `cancel()` sets the canceled
flag in every state, so a canceled `Running` handle may still move to
`Completed` or `Failed`. -/
theorem C1_state_machine (es : List MEvent) (e : MEvent) :
    ((runEvents es).is_completed = true →
      (runEvents (es ++ [e])).is_completed = true ∧
        (runEvents (es ++ [e])).get_exception = none ∧
        (runEvents (es ++ [e])).get_result = (runEvents es).get_result) ∧
    ((runEvents es).get_exception.isSome →
      (runEvents (es ++ [e])).get_exception = (runEvents es).get_exception ∧
        (runEvents (es ++ [e])).is_completed = false) ∧
    ((runEvents es).is_canceled = true →
      (runEvents (es ++ [e])).is_canceled = true) ∧
    ((runEvents es).is_canceled = true ∧ (runEvents es).running = false ∧
        (runEvents es).finished = false →
      (runEvents (es ++ [e])).is_completed = false ∧
        (runEvents (es ++ [e])).get_exception = none ∧
        (runEvents (es ++ [e])).running = false) ∧
    ¬((runEvents es).is_completed = true ∧ (runEvents es).get_exception.isSome) := by
  have hstep := MThread.step_stability (runEvents es) e (inv_runEvents es)
  have happ : runEvents (es ++ [e]) = (runEvents es).step e := by
    simp [runEvents_append]
  rw [happ]
  exact hstep

/-- Closed instance of the amended state machine: a completed handle stays
completed after a further cancel, and a pending-canceled handle stays
unfailed after its start attempt. -/
theorem C1_state_machine_witness :
    (runEvents ([MEvent.startRun, MEvent.finishRun (Outcome.ok (some 3))] ++
      [MEvent.cancel])).is_completed = true ∧
    (runEvents ([MEvent.cancel] ++ [MEvent.startRun])).is_completed = false :=
  ⟨((C1_state_machine [MEvent.startRun, MEvent.finishRun (Outcome.ok (some 3))]
      MEvent.cancel).1 (by decide)).1,
   ((C1_state_machine [MEvent.cancel] MEvent.startRun).2.2.2.1 (by decide)).1⟩

/-- Claim C2: if `cancel()` runs while the handle is neither alive nor
finished (i.e. before `run()` has started executing), then however the
lifecycle continues the target is never invoked: the thread is never
alive, and result, exception and completion stay at their initial
`None`/`False` values. -/
theorem C2_cancel_before_start (es rest : List MEvent)
    (hc : (runEvents es).is_canceled = true)
    (hr : (runEvents es).running = false)
    (hf : (runEvents es).finished = false) :
    (runEvents (es ++ rest)).running = false ∧
    (runEvents (es ++ rest)).get_result = none ∧
    (runEvents (es ++ rest)).get_exception = none ∧
    (runEvents (es ++ rest)).is_completed = false := by
  have hinv := inv_runEvents es
  have h0 := hinv.1 hf
  have hdead : (runEvents es).Dead := ⟨hc, hr, h0.1, h0.2.1, h0.2.2⟩
  have := MThread.dead_foldl (runEvents es) rest hdead
  rw [runEvents_append]
  exact ⟨this.2.1, this.2.2.1, this.2.2.2.1, this.2.2.2.2⟩

/-- Closed instance of C2: cancel as the first event, then a start
attempt and a would-be completion event; nothing is ever recorded. -/
theorem C2_witness :
    (runEvents ([MEvent.cancel] ++
        [MEvent.startRun, MEvent.finishRun (Outcome.ok (some 7))])).running = false ∧
    (runEvents ([MEvent.cancel] ++
        [MEvent.startRun, MEvent.finishRun (Outcome.ok (some 7))])).get_result = none ∧
    (runEvents ([MEvent.cancel] ++
        [MEvent.startRun, MEvent.finishRun (Outcome.ok (some 7))])).get_exception = none ∧
    (runEvents ([MEvent.cancel] ++
        [MEvent.startRun, MEvent.finishRun (Outcome.ok (some 7))])).is_completed = false :=
  C2_cancel_before_start [MEvent.cancel]
    [MEvent.startRun, MEvent.finishRun (Outcome.ok (some 7))]
    (by decide) (by decide) (by decide)

/-! ## ThreadManager (thread_manager.py, class ThreadManager)

Manager state: `maxThreads` (`_max_threads`), the tracked list of
`ManagedThread` handles (`_active_threads`), the number of futures handed
to the `ThreadPoolExecutor` (`_futures`; the executor itself is a
third-party black box, only the bookkeeping list is modelled), and
`_shutdown_flag`.  The `RLock` serialises the methods, so each method is
one atomic step. -/

structure ThreadManager where
  maxThreads : Nat
  activeThreads : List MThread
  futures : Nat
  shutdownFlag : Bool
deriving DecidableEq, Repr

/-- `ThreadManager.__init__(max_threads=8)`. -/
def ThreadManager.init (max_threads : Nat := 8) : ThreadManager :=
  { maxThreads := max_threads, activeThreads := [], futures := 0,
    shutdownFlag := false }

/-- `_clean_completed_threads`: keep only threads with
`t.is_alive() and not t.is_canceled()`. -/
def ThreadManager.clean (m : ThreadManager) : ThreadManager :=
  { m with activeThreads :=
      m.activeThreads.filter (fun t => t.running && !t.canceled) }

/-- `submit`: clean the tracked list, then either raise
`RuntimeError("ThreadManager is shutting down")` or create a fresh
`ManagedThread`, append it to `_active_threads` and `start()` it
immediately.  The returned pair is (manager state after the call,
raised error or returned handle). -/
def ThreadManager.submit (m : ThreadManager) :
    ThreadManager × Except String MThread :=
  let c := m.clean
  if c.shutdownFlag then (c, .error "ThreadManager is shutting down")
  else
    let th := MThread.init.step .startRun
    ({ c with activeThreads := c.activeThreads ++ [th] }, .ok th)

/-- `submit_task`: raise after shutdown, otherwise hand the callable to
the executor and record the future. -/
def ThreadManager.submit_task (m : ThreadManager) :
    ThreadManager × Except String Unit :=
  if m.shutdownFlag then (m, .error "ThreadManager is shutting down")
  else ({ m with futures := m.futures + 1 }, .ok ())

/-- `cancel_all_threads`: call `cancel()` on every tracked thread (and
`cancel()` on every future, which does not change the modelled count). -/
def ThreadManager.cancel_all_threads (m : ThreadManager) : ThreadManager :=
  { m with activeThreads := m.activeThreads.map (fun t => t.step .cancel) }

/-- `shutdown`: set `_shutdown_flag`, cancel everything, wait briefly,
release the executor, and clear `_active_threads` and `_futures`. -/
def ThreadManager.shutdown (m : ThreadManager) : ThreadManager :=
  { m.cancel_all_threads with
      shutdownFlag := true
      activeThreads := []
      futures := 0 }

/-- Update the i-th tracked handle (a lifecycle event happening on that
thread, observed through the shared handle object). -/
def updateAt (l : List MThread) (i : Nat) (e : MEvent) : List MThread :=
  match l, i with
  | [], _ => []
  | t :: ts, 0 => t.step e :: ts
  | t :: ts, Nat.succ j => t :: updateAt ts j e

/-- Atomic events on a `ThreadManager`: its public methods, plus the
asynchronous lifecycle events of the tracked threads. -/
inductive TMEvent where
  | submit
  | submitTask
  | finishThread (i : Nat) (o : Outcome)
  | cancelThread (i : Nat)
  | cancelAll
  | cleanup
  | shutdown
deriving DecidableEq, Repr

def tmStep (m : ThreadManager) : TMEvent → ThreadManager
  | .submit => m.submit.1
  | .submitTask => m.submit_task.1
  | .finishThread i o =>
      { m with activeThreads := updateAt m.activeThreads i (.finishRun o) }
  | .cancelThread i =>
      { m with activeThreads := updateAt m.activeThreads i .cancel }
  | .cancelAll => m.cancel_all_threads
  | .cleanup => m.clean
  | .shutdown => m.shutdown

/-- Manager state after a sequence of events, starting from
`ThreadManager(max_threads=n)`. -/
def tmRun (n : Nat) (es : List TMEvent) : ThreadManager :=
  es.foldl tmStep (ThreadManager.init n)

/-- All tracked handles are alive and uncanceled (each was started by
`submit` and has neither finished nor been canceled). -/
def ThreadManager.allLive (m : ThreadManager) : Bool :=
  m.activeThreads.all (fun t => t.running && !t.canceled)

theorem clean_of_empty (m : ThreadManager) (h : m.activeThreads = []) :
    m.clean = m := by
  cases m
  simp_all [ThreadManager.clean]

theorem clean_of_allLive (m : ThreadManager) (h : m.allLive = true) :
    m.clean = m := by
  have hall := List.all_eq_true.mp h
  cases m
  simp only [ThreadManager.clean]
  congr 1
  exact List.filter_eq_self.mpr hall

theorem submit_grows (m : ThreadManager) (h1 : m.shutdownFlag = false)
    (h2 : m.allLive = true) :
    m.submit.1.activeThreads.length = m.activeThreads.length + 1 ∧
    m.submit.1.shutdownFlag = false ∧ m.submit.1.allLive = true := by
  have hc := clean_of_allLive m h2
  have hsub : m.submit.1 =
      { m with activeThreads :=
          m.activeThreads ++ [MThread.init.step MEvent.startRun] } := by
    simp [ThreadManager.submit, hc, h1]
  rw [hsub]
  refine ⟨by simp, h1, ?_⟩
  simp only [ThreadManager.allLive, List.all_append]
  simp only [ThreadManager.allLive] at h2
  rw [h2]
  decide

theorem submit_replicate (k : Nat) (m : ThreadManager)
    (h1 : m.shutdownFlag = false) (h2 : m.allLive = true) :
    ((List.replicate k TMEvent.submit).foldl tmStep m).activeThreads.length =
      m.activeThreads.length + k ∧
    ((List.replicate k TMEvent.submit).foldl tmStep m).allLive = true := by
  induction k generalizing m with
  | zero => exact ⟨rfl, h2⟩
  | succ k ih =>
      rw [List.replicate_succ]
      simp only [List.foldl_cons]
      have hs := submit_grows m h1 h2
      have hrec := ih m.submit.1 hs.2.1 hs.2.2
      refine ⟨?_, hrec.2⟩
      have : tmStep m TMEvent.submit = m.submit.1 := rfl
      rw [this, hrec.1, hs.1]
      omega

/-- Claim C3, as stated, is false: on a default manager
(`max_threads = 8`), nine straight `submit` calls leave nine tracked
tasks, all started immediately (alive and uncanceled) — nothing is
queued when eight tasks are already active. -/
theorem C3_counterexample :
    (tmRun 8 (List.replicate 9 TMEvent.submit)).activeThreads.length = 9 ∧
    (tmRun 8 (List.replicate 9 TMEvent.submit)).allLive = true := by
  decide

/-- Claim C3 (amended): `submit` starts every task immediately as an
ad-hoc thread regardless of `max_threads`: after `k` submissions with no
intervening completions or cancellations, the manager tracks `k` started
tasks, for every `k` — the tracked-active count is unbounded and no
submission is queued (only `submit_task` goes through the fixed-size
executor pool). -/
theorem C3_submit_unbounded (n k : Nat) :
    (tmRun n (List.replicate k TMEvent.submit)).activeThreads.length = k ∧
    (tmRun n (List.replicate k TMEvent.submit)).allLive = true := by
  have h := submit_replicate k (ThreadManager.init n) rfl rfl
  simpa [tmRun, ThreadManager.init] using h

/-- Claim C4: when the manager is not shut down, `submit` returns the
handle normally (no exception reaches the caller), and if the task's
callable then raises, the exception is stored on the handle and read back
by `get_exception()`, while `is_completed()` stays `False` and no result
is recorded. -/
theorem C4_exception_captured (m : ThreadManager) (e : Nat)
    (h : m.shutdownFlag = false) :
    m.submit.2 = Except.ok (MThread.init.step MEvent.startRun) ∧
    ((MThread.init.step MEvent.startRun).step
        (MEvent.finishRun (Outcome.err e))).get_exception = some e ∧
    ((MThread.init.step MEvent.startRun).step
        (MEvent.finishRun (Outcome.err e))).is_completed = false ∧
    ((MThread.init.step MEvent.startRun).step
        (MEvent.finishRun (Outcome.err e))).get_result = none := by
  have hflag : m.clean.shutdownFlag = false := h
  refine ⟨?_, rfl, rfl, rfl⟩
  simp [ThreadManager.submit, hflag]

/-- Closed instance of C4 on a fresh default manager and exception 42. -/
theorem C4_witness :
    (ThreadManager.init 8).submit.2 =
      Except.ok (MThread.init.step MEvent.startRun) ∧
    ((MThread.init.step MEvent.startRun).step
        (MEvent.finishRun (Outcome.err 42))).get_exception = some 42 ∧
    ((MThread.init.step MEvent.startRun).step
        (MEvent.finishRun (Outcome.err 42))).is_completed = false ∧
    ((MThread.init.step MEvent.startRun).step
        (MEvent.finishRun (Outcome.err 42))).get_result = none :=
  C4_exception_captured (ThreadManager.init 8) 42 rfl

/-- On every reachable manager state, a raised shutdown flag means the
tracked lists were already cleared by `shutdown()`. -/
def ShutEmpty (m : ThreadManager) : Prop :=
  m.shutdownFlag = true → m.activeThreads = [] ∧ m.futures = 0

theorem tmStep_shutEmpty (m : ThreadManager) (e : TMEvent)
    (h : ShutEmpty m) : ShutEmpty (tmStep m e) := by
  cases e with
  | submit =>
      intro hf
      by_cases hm : m.shutdownFlag = true
      · obtain ⟨ha, hfu⟩ := h hm
        simp_all [tmStep, ThreadManager.submit, ThreadManager.clean]
      · simp only [Bool.not_eq_true] at hm
        have : m.clean.shutdownFlag = false := hm
        simp_all [tmStep, ThreadManager.submit, ThreadManager.clean]
  | submitTask =>
      intro hf
      by_cases hm : m.shutdownFlag = true
      · obtain ⟨ha, hfu⟩ := h hm
        simp_all [tmStep, ThreadManager.submit_task]
      · simp only [Bool.not_eq_true] at hm
        simp_all [tmStep, ThreadManager.submit_task]
  | finishThread i o =>
      intro hf
      obtain ⟨ha, hfu⟩ := h hf
      simp_all [tmStep, updateAt]
  | cancelThread i =>
      intro hf
      obtain ⟨ha, hfu⟩ := h hf
      simp_all [tmStep, updateAt]
  | cancelAll =>
      intro hf
      obtain ⟨ha, hfu⟩ := h hf
      simp_all [tmStep, ThreadManager.cancel_all_threads]
  | cleanup =>
      intro hf
      obtain ⟨ha, hfu⟩ := h hf
      simp_all [tmStep, ThreadManager.clean]
  | shutdown =>
      intro hf
      simp [tmStep, ThreadManager.shutdown]

theorem tmRun_shutEmpty (n : Nat) (es : List TMEvent) :
    ShutEmpty (tmRun n es) := by
  have base : ShutEmpty (ThreadManager.init n) := by
    intro hf
    simp [ThreadManager.init] at hf
  rw [tmRun]
  generalize ThreadManager.init n = m at base
  induction es generalizing m with
  | nil => exact base
  | cons e es ih => exact ih (tmStep m e) (tmStep_shutEmpty m e base)

theorem submit_rejects (m : ThreadManager) (h1 : m.shutdownFlag = true)
    (h2 : m.activeThreads = []) :
    m.submit = (m, Except.error "ThreadManager is shutting down") := by
  have hc := clean_of_empty m h2
  simp [ThreadManager.submit, hc, h1]

/-- Claim C5: on every reachable manager state whose shutdown flag is
raised, `submit` and `submit_task` both raise
`RuntimeError("ThreadManager is shutting down")` and return the manager
state exactly as it was — no task is started and the tracked sets are
unchanged. -/
theorem C5_reject_after_shutdown (n : Nat) (es : List TMEvent)
    (h : (tmRun n es).shutdownFlag = true) :
    (tmRun n es).submit =
      (tmRun n es, Except.error "ThreadManager is shutting down") ∧
    (tmRun n es).submit_task =
      (tmRun n es, Except.error "ThreadManager is shutting down") := by
  have hempty := tmRun_shutEmpty n es h
  refine ⟨submit_rejects _ h hempty.1, ?_⟩
  simp [ThreadManager.submit_task, h]

/-- Closed instance of C5: right after `shutdown()` on a fresh default
manager, both submission paths reject and leave the state unchanged. -/
theorem C5_witness :
    (tmRun 8 [TMEvent.shutdown]).submit =
      (tmRun 8 [TMEvent.shutdown],
        Except.error "ThreadManager is shutting down") ∧
    (tmRun 8 [TMEvent.shutdown]).submit_task =
      (tmRun 8 [TMEvent.shutdown],
        Except.error "ThreadManager is shutting down") :=
  C5_reject_after_shutdown 8 [TMEvent.shutdown] (by decide)

/-! ## ThreadManager.wait_for_all (thread_manager.py)

The loop records `start_time = time.time()` and on each iteration first
tests `time.time() - start_time > timeout` (when a timeout is given),
returning `False` on success of that test; otherwise it cleans the
tracked list, returns `True` if it is empty, and sleeps 0.1 s.  The
elapsed readings observed at the successive timeout checks are modelled
as a list of abstract clock values (the fuel; the real clock is
nondecreasing and unbounded, so the list is as long as needed).  With no
concurrent lifecycle events the tracked list is constant through the
loop.  `none` means the fuel ran out before the loop decided. -/

/-- The threads `_clean_completed_threads` keeps. -/
def liveThreads (active : List MThread) : List MThread :=
  active.filter (fun t => t.running && !t.canceled)

def wait_for_all (timeout : Option Nat) (active : List MThread) :
    List Nat → Option Bool
  | [] => none
  | t :: ts =>
      if (match timeout with
          | some tmo => decide (tmo < t)
          | none => false) then some false
      else if (liveThreads active).isEmpty then some true
      else wait_for_all timeout active ts

/-- Claim C6, as stated, is false: with no tracked tasks at all but the
first elapsed-time reading already positive (the normal case — the clock
advances between `time.time()` calls), `wait_for_all(timeout=0)` returns
`False`, not `True`, because the timeout test runs before the
empty-registry test. -/
theorem C6_counterexample :
    wait_for_all (some 0) [] [1] = some false := by
  decide

theorem wait_never_true (timeout : Option Nat) (active : List MThread)
    (h : (liveThreads active).isEmpty = false) :
    ∀ samples : List Nat, wait_for_all timeout active samples ≠ some true := by
  intro samples
  induction samples with
  | nil => simp [wait_for_all]
  | cons t ts ih =>
      simp only [wait_for_all, h]
      split
      · simp
      · simpa using ih

/-- Claim C6 (amended): with `timeout=0`, `wait_for_all` returns `False`
at the first elapsed-time reading that is strictly positive, whether or
not any task is active; it returns `True` only when a check runs while
the measured elapsed time is still zero and no tracked task is alive and
uncanceled; with a still-active task it never returns `True`, however the
clock advances. -/
theorem C6_wait_for_all_zero_timeout (active : List MThread) (t0 : Nat)
    (ts : List Nat) :
    (0 < t0 → wait_for_all (some 0) active (t0 :: ts) = some false) ∧
    (t0 = 0 → (liveThreads active).isEmpty = true →
      wait_for_all (some 0) active (t0 :: ts) = some true) ∧
    ((liveThreads active).isEmpty = false →
      ∀ samples : List Nat,
        wait_for_all (some 0) active samples ≠ some true) := by
  refine ⟨?_, ?_, fun h => wait_never_true (some 0) active h⟩
  · intro h0
    simp [wait_for_all, h0]
  · intro h0 hempty
    subst h0
    simp [wait_for_all, hempty]

/-- Closed instance of the amended C6: one alive task makes both a
positive first reading and a zero first reading come out `False`/not
`True`. -/
theorem C6_witness :
    wait_for_all (some 0) [MThread.init.step MEvent.startRun] [1] =
      some false ∧
    wait_for_all (some 0) [] [0] = some true ∧
    wait_for_all (some 0) [MThread.init.step MEvent.startRun] [0, 1] ≠
      some true :=
  ⟨(C6_wait_for_all_zero_timeout [MThread.init.step MEvent.startRun] 1 []).1
      (by decide),
   (C6_wait_for_all_zero_timeout [] 0 []).2.1 rfl (by decide),
   (C6_wait_for_all_zero_timeout [MThread.init.step MEvent.startRun] 0
      [1]).2.2 (by decide) [0, 1]⟩

/-! ## VLCPlayer (vlc_player.py)

Each playback operation first returns `False` when
`not VLC_AVAILABLE or not self._media_player`, then runs the library
call(s) inside `try`, returning `False` from the `except` handler when
the library raises.  The underlying `python-vlc` call is a black box,
modelled by an oracle outcome `LibResult`: it returns a value or raises.
The Lean operations are total Bool-valued functions — the embedding of
"every path returns a bool and no exception escapes".  The clamping in
`set_position`/`set_volume` (`max(0.0, min(1.0, position))`,
`max(0, min(100, volume))`) happens before the `try` and cannot raise. -/

inductive LibResult (α : Type) where
  | ret (a : α)
  | raise (e : Nat)
deriving DecidableEq

structure VLCPlayer where
  vlcAvailable : Bool
  hasMediaPlayer : Bool
deriving DecidableEq

/-- `play`: both the new-media branch and the resume branch end in
`self._media_player.play() == 0` (libvlc returns 0 on success). -/
def VLCPlayer.play (p : VLCPlayer) (call : LibResult Int) : Bool :=
  if p.vlcAvailable && p.hasMediaPlayer then
    match call with
    | .ret status => status == 0
    | .raise _ => false
  else false

def VLCPlayer.pause (p : VLCPlayer) (call : LibResult Unit) : Bool :=
  if p.vlcAvailable && p.hasMediaPlayer then
    match call with
    | .ret _ => true
    | .raise _ => false
  else false

def VLCPlayer.stop (p : VLCPlayer) (call : LibResult Unit) : Bool :=
  if p.vlcAvailable && p.hasMediaPlayer then
    match call with
    | .ret _ => true
    | .raise _ => false
  else false

def VLCPlayer.set_time (p : VLCPlayer) (ms : Int) (call : LibResult Unit) :
    Bool :=
  if p.vlcAvailable && p.hasMediaPlayer then
    match call with
    | .ret _ => true
    | .raise _ => false
  else false

def VLCPlayer.set_position (p : VLCPlayer) (pos : ℚ)
    (call : LibResult Unit) : Bool :=
  if p.vlcAvailable && p.hasMediaPlayer then
    let clamped := max 0 (min 1 pos)
    match call, clamped with
    | .ret _, _ => true
    | .raise _, _ => false
  else false

def VLCPlayer.set_volume (p : VLCPlayer) (volume : Int)
    (call : LibResult Unit) : Bool :=
  if p.vlcAvailable && p.hasMediaPlayer then
    let clamped := max 0 (min 100 volume)
    match call, clamped with
    | .ret _, _ => true
    | .raise _, _ => false
  else false

/-- Claim C7: every modelled playback operation returns `False` (and, by
totality of the embedding, raises nothing) whenever VLC or the media
player object is unavailable, and whenever the underlying library call
raises. -/
theorem C7_vlc_ops_fail_closed (p : VLCPlayer) (cPlay : LibResult Int)
    (cPause cStop cTime cPos cVol : LibResult Unit) (ms vol : Int)
    (pos : ℚ) (e : Nat) :
    (p.vlcAvailable = false ∨ p.hasMediaPlayer = false →
      p.play cPlay = false ∧ p.pause cPause = false ∧
      p.stop cStop = false ∧ p.set_time ms cTime = false ∧
      p.set_position pos cPos = false ∧ p.set_volume vol cVol = false) ∧
    (p.play (.raise e) = false ∧ p.pause (.raise e) = false ∧
      p.stop (.raise e) = false ∧ p.set_time ms (.raise e) = false ∧
      p.set_position pos (.raise e) = false ∧
      p.set_volume vol (.raise e) = false) := by
  obtain ⟨av, mp⟩ := p
  constructor
  · rintro (h | h) <;> subst h <;>
      simp [VLCPlayer.play, VLCPlayer.pause, VLCPlayer.stop,
        VLCPlayer.set_time, VLCPlayer.set_position, VLCPlayer.set_volume]
  · cases av <;> cases mp <;>
      simp [VLCPlayer.play, VLCPlayer.pause, VLCPlayer.stop,
        VLCPlayer.set_time, VLCPlayer.set_position, VLCPlayer.set_volume]

/-- Closed instance of C7: VLC import failed, player object absent. -/
theorem C7_witness :
    (VLCPlayer.mk false false).play (.ret 0) = false ∧
    (VLCPlayer.mk false false).pause (.ret ()) = false ∧
    (VLCPlayer.mk false false).stop (.ret ()) = false ∧
    (VLCPlayer.mk false false).set_time 5 (.ret ()) = false ∧
    (VLCPlayer.mk false false).set_position (1 / 2) (.ret ()) = false ∧
    (VLCPlayer.mk false false).set_volume 50 (.ret ()) = false :=
  (C7_vlc_ops_fail_closed (VLCPlayer.mk false false) (.ret 0) (.ret ())
    (.ret ()) (.ret ()) (.ret ()) (.ret ()) 5 50 (1 / 2) 0).1 (Or.inl rfl)

/-! ## SettingsManager video positions (settings_manager.py)

`QSettings` is a persistent key → value map with hierarchical
slash-separated string keys; a key is modelled as its list of path
segments (`"video_positions/<hash>"` is `["video_positions", <hash>]`),
a write as consing (latest entry wins on lookup, which is exactly
overwrite semantics), a typed read as lookup with conversion and
default.  Python's `hash : str → int` is process-opaque but fixed, so it
is a parameter `pyHash` of the operations that use it. -/

inductive QVal where
  | qb (b : Bool)
  | qi (i : Int)
  | qs (s : String)
deriving DecidableEq

/-- A hierarchical settings key: its slash-separated segments. -/
abbrev QKey := List String

/-- The settings store; newest write first. -/
abbrev QStore := List (QKey × QVal)

def qlookup (st : QStore) (k : QKey) : Option QVal :=
  match st with
  | [] => none
  | (k2, v) :: rest => if k2 = k then some v else qlookup rest k

/-- `qsettings.value(key, default, int)`. -/
def getInt (st : QStore) (k : QKey) (dflt : Int) : Int :=
  match qlookup st k with
  | some (QVal.qi i) => i
  | _ => dflt

/-- `qsettings.value(key, default, bool)`. -/
def getBool (st : QStore) (k : QKey) (dflt : Bool) : Bool :=
  match qlookup st k with
  | some (QVal.qb b) => b
  | _ => dflt

/-- `qsettings.value(key, default)` read back as a string. -/
def getStr (st : QStore) (k : QKey) (dflt : String) : String :=
  match qlookup st k with
  | some (QVal.qs s) => s
  | _ => dflt

/-- `get_remember_position`: `value("playback/remember_position", True,
bool)`. -/
def get_remember_position (st : QStore) : Bool :=
  getBool st ["playback", "remember_position"] true

/-- Python `url_map[url] = url_hash` on the dict rendered as an ordered
association list: overwrite in place if present, else append. -/
def dictInsert (m : List (String × String)) (k v : String) :
    List (String × String) :=
  if m.any (fun kv => kv.1 = k) then
    m.map (fun kv => if kv.1 = k then (k, v) else kv)
  else m ++ [(k, v)]

/-- The entry writes of `save_url_hash_map`: `beginWriteArray`
(`setArrayIndex(i)`, `setValue("url", ...)`, `setValue("hash", ...)`)
stores each pair under `url_hash_map/<i+1>/url` and
`url_hash_map/<i+1>/hash`. -/
def writeArrayEntries (st : QStore) (i : Nat) :
    List (String × String) → QStore
  | [] => st
  | (url, h) :: rest =>
      writeArrayEntries
        ((["url_hash_map", toString (i + 1), "hash"], QVal.qs h) ::
          (["url_hash_map", toString (i + 1), "url"], QVal.qs url) :: st)
        (i + 1) rest

/-- `save_url_hash_map`: write the entries, then `endArray` records the
size under `url_hash_map/size`. -/
def save_url_hash_map (st : QStore) (url_map : List (String × String)) :
    QStore :=
  (["url_hash_map", "size"], QVal.qi url_map.length) ::
    writeArrayEntries st 0 url_map

/-- `load_url_hash_map`: read the array back, keeping entries whose url
and hash are both non-empty strings. -/
def load_url_hash_map (st : QStore) : List (String × String) :=
  (List.range (getInt st ["url_hash_map", "size"] 0).toNat).filterMap
    (fun i =>
      let url := getStr st ["url_hash_map", toString (i + 1), "url"] ""
      let h := getStr st ["url_hash_map", toString (i + 1), "hash"] ""
      if url ≠ "" ∧ h ≠ "" then some (url, h) else none)

/-- `update_video_position(url, position)`: no-op unless
remember-position is on; otherwise refresh the url→hash map and store
the position under group `video_positions`, key `str(hash(url))`. -/
def update_video_position (pyHash : String → Int) (st : QStore)
    (url : String) (position : Int) : QStore :=
  if !get_remember_position st then st
  else
    let url_hash := toString (pyHash url)
    let st1 := save_url_hash_map st (dictInsert (load_url_hash_map st) url url_hash)
    (["video_positions", url_hash], QVal.qi position) :: st1

/-- `get_video_position(url)`: 0 unless remember-position is on;
otherwise `value("video_positions/" + str(hash(url)), 0, int)`. -/
def get_video_position (pyHash : String → Int) (st : QStore)
    (url : String) : Int :=
  if !get_remember_position st then 0
  else getInt st ["video_positions", toString (pyHash url)] 0

theorem qlookup_writeArrayEntries (k : QKey)
    (hk : k.head? ≠ some "url_hash_map") :
    ∀ (m : List (String × String)) (st : QStore) (i : Nat),
      qlookup (writeArrayEntries st i m) k = qlookup st k := by
  intro m
  induction m with
  | nil => intro st i; rfl
  | cons e rest ih =>
      intro st i
      obtain ⟨url, h⟩ := e
      rw [writeArrayEntries, ih]
      have h1 : ¬(["url_hash_map", toString (i + 1), "hash"] : QKey) = k := by
        intro hEq; apply hk; rw [← hEq]; rfl
      have h2 : ¬(["url_hash_map", toString (i + 1), "url"] : QKey) = k := by
        intro hEq; apply hk; rw [← hEq]; rfl
      simp [qlookup, h1, h2]

/-- Claim C8: with remember-position enabled, updating then reading the
position of a URL gives the position back; the value sits in the store
under the hierarchical key `video_positions/<str(hash(url))>`; with
remember-position disabled the read returns 0 (and the update writes
nothing). -/
theorem C8_position_roundtrip (pyHash : String → Int) (st : QStore)
    (u : String) (p : Int) (h : get_remember_position st = true) :
    get_video_position pyHash (update_video_position pyHash st u p) u = p ∧
    qlookup (update_video_position pyHash st u p)
        ["video_positions", toString (pyHash u)] = some (QVal.qi p) ∧
    (∀ st2 : QStore, get_remember_position st2 = false →
      get_video_position pyHash st2 u = 0 ∧
      update_video_position pyHash st2 u p = st2) := by
  have hS : update_video_position pyHash st u p =
      (["video_positions", toString (pyHash u)], QVal.qi p) ::
        (["url_hash_map", "size"], QVal.qi
          (dictInsert (load_url_hash_map st) u (toString (pyHash u))).length) ::
        writeArrayEntries st 0
          (dictInsert (load_url_hash_map st) u (toString (pyHash u))) := by
    simp [update_video_position, h, save_url_hash_map]
  have hlook : qlookup (update_video_position pyHash st u p)
      ["video_positions", toString (pyHash u)] = some (QVal.qi p) := by
    rw [hS]
    simp [qlookup]
  have hne1 : ¬(["video_positions", toString (pyHash u)] : QKey) =
      ["playback", "remember_position"] := by simp
  have hne2 : ¬(["url_hash_map", "size"] : QKey) =
      ["playback", "remember_position"] := by simp
  have hrem : get_remember_position (update_video_position pyHash st u p) =
      true := by
    rw [get_remember_position, getBool, hS]
    rw [qlookup, if_neg hne1, qlookup, if_neg hne2,
      qlookup_writeArrayEntries _ (by simp)]
    exact h
  refine ⟨?_, hlook, ?_⟩
  · simp [get_video_position, hrem, getInt, hlook]
  · intro st2 h2
    constructor
    · simp [get_video_position, h2]
    · simp [update_video_position, h2]

/-- Closed instance of C8 on the empty store (remember-position defaults
to on), a constant stand-in for Python's opaque string hash, URL "a" and
position 5. -/
theorem C8_witness :
    get_video_position (fun _ => 7) (update_video_position (fun _ => 7) [] "a" 5) "a" = 5 ∧
    qlookup (update_video_position (fun _ => 7) [] "a" 5)
        ["video_positions", toString ((7 : Int))] = some (QVal.qi 5) :=
  ⟨(C8_position_roundtrip (fun _ => 7) [] "a" 5 rfl).1,
   (C8_position_roundtrip (fun _ => 7) [] "a" 5 rfl).2.1⟩

/-! ## format_time (utils/format_utils.py) -/

/-- Python `f"{n:02d}"` for a nonnegative int: the decimal rendering,
zero-padded on the left to at least two digits. -/
def pad2 (n : Nat) : String :=
  if n < 10 then "0" ++ toString n else toString n

/-- `format_time(seconds)`: `"00:00"` for negative input, else
`divmod(seconds, 3600)` and `divmod(remainder, 60)` rendered as
`hh:mm:ss` when there are hours and `mm:ss` otherwise. -/
def format_time (seconds : Int) : String :=
  if seconds < 0 then "00:00"
  else
    let s := seconds.toNat
    let hours := s / 3600
    let remainder := s % 3600
    let minutes := remainder / 60
    let secs := remainder % 60
    if hours > 0 then
      pad2 hours ++ ":" ++ pad2 minutes ++ ":" ++ pad2 secs
    else
      pad2 minutes ++ ":" ++ pad2 secs

/-- Claim C9: `format_time` is total on the integers (it is a total Lean
function); negative inputs give `"00:00"`; inputs below one hour give the
zero-padded `mm:ss` rendering; inputs of an hour or more give the
zero-padded `hh:mm:ss` rendering, with `hh`, `mm`, `ss` the Euclidean
quotients/remainders by 3600 and 60. -/
theorem C9_format_time (s : Int) :
    (s < 0 → format_time s = "00:00") ∧
    (0 ≤ s → s < 3600 →
      format_time s = pad2 (s.toNat / 60) ++ ":" ++ pad2 (s.toNat % 60)) ∧
    (3600 ≤ s →
      format_time s = pad2 (s.toNat / 3600) ++ ":" ++
        pad2 (s.toNat % 3600 / 60) ++ ":" ++ pad2 (s.toNat % 3600 % 60)) := by
  refine ⟨fun h => by simp [format_time, h], fun h0 h1 => ?_, fun h => ?_⟩
  · have hns : ¬s < 0 := by omega
    have hlt : s.toNat < 3600 := by omega
    have h3600 : s.toNat % 3600 = s.toNat := Nat.mod_eq_of_lt hlt
    have hh : s.toNat / 3600 = 0 := Nat.div_eq_of_lt hlt
    simp [format_time, hns, hh, h3600]
  · have hns : ¬s < 0 := by omega
    have hge : 3600 ≤ s.toNat := by omega
    have hh : 0 < s.toNat / 3600 := Nat.div_pos hge (by norm_num)
    simp [format_time, hns, hh]

/-- Closed instances of C9: one value in each of the three regimes. -/
theorem C9_witness :
    format_time (-5) = "00:00" ∧
    format_time 72 = pad2 (Int.toNat 72 / 60) ++ ":" ++
      pad2 (Int.toNat 72 % 60) ∧
    format_time 3725 = pad2 (Int.toNat 3725 / 3600) ++ ":" ++
      pad2 (Int.toNat 3725 % 3600 / 60) ++ ":" ++
      pad2 (Int.toNat 3725 % 3600 % 60) :=
  ⟨(C9_format_time (-5)).1 (by decide),
   (C9_format_time 72).2.1 (by decide) (by decide),
   (C9_format_time 3725).2.2 (by decide)⟩

/-! ## PlaylistItem (models.py)

A dataclass with fields `url`, `title`, `duration: int = 0`,
`thumbnail: str = ""`.  A Python dict value is dynamically a string or an
int here; `from_dict(data)` is `cls(**data)`: every key must name a
dataclass field (unknown keys raise `TypeError`), `url` and `title` are
required, the other two default. -/

inductive PyVal where
  | vs (s : String)
  | vi (i : Int)
deriving DecidableEq

def lookupD (data : List (String × PyVal)) (k : String) : Option PyVal :=
  match data with
  | [] => none
  | (k2, v) :: rest => if k2 = k then some v else lookupD rest k

structure PlaylistItem where
  url : String
  title : String
  duration : Int := 0
  thumbnail : String := ""
deriving DecidableEq

def PlaylistItem.to_dict (x : PlaylistItem) : List (String × PyVal) :=
  [("url", PyVal.vs x.url), ("title", PyVal.vs x.title),
   ("duration", PyVal.vi x.duration), ("thumbnail", PyVal.vs x.thumbnail)]

def PlaylistItem.from_dict (data : List (String × PyVal)) :
    Option PlaylistItem :=
  if data.all (fun kv => kv.1 == "url" || kv.1 == "title" ||
      kv.1 == "duration" || kv.1 == "thumbnail") then
    match lookupD data "url", lookupD data "title" with
    | some (PyVal.vs u), some (PyVal.vs t) =>
        match (match lookupD data "duration" with
               | some (PyVal.vi d) => some d
               | none => some 0
               | _ => none),
              (match lookupD data "thumbnail" with
               | some (PyVal.vs s) => some s
               | none => some ""
               | _ => none) with
        | some d, some th =>
            some { url := u, title := t, duration := d, thumbnail := th }
        | _, _ => none
    | _, _ => none
  else none

/-- Claim C10: `from_dict` inverts `to_dict` on every `PlaylistItem` —
the pair is a round trip over the four fields. -/
theorem C10_roundtrip (x : PlaylistItem) :
    PlaylistItem.from_dict x.to_dict = some x := rfl

end VLCYT
